import Mathlib

/-!
Shallow embedding of `src/App.py` (Seepage): a Dash app whose single
callback `update_figure` builds a plotly figure from seven scalar slider
values.  Numeric values are modelled as exact rationals; plotly shapes,
traces, annotations and the layout are modelled as Lean structures whose
fields mirror the keyword arguments passed in the source.  Shapes appear
in the list in the order of the `add_shape` calls, traces in the order of
the `add_trace` calls, and text labels in the order of the
`add_annotation` calls, which is how plotly accumulates them.
-/

namespace Seepage

/-- The `type=` keyword of `fig.add_shape` in the source: `"rect"` or `"line"`. -/
inductive ShapeType where
  | rect
  | line
deriving DecidableEq, Repr, Inhabited

/-- One plotly shape as produced by `fig.add_shape`: its kind, the four
coordinates, and the styling keywords used in the source. -/
structure Shape where
  type : ShapeType
  x0 : ℚ
  x1 : ℚ
  y0 : ℚ
  y1 : ℚ
  lineColor : String
  lineWidth : ℚ
  fillcolor : Option String
  layer : Option String
deriving DecidableEq, Repr, Inhabited

/-- The `go.Contour` trace added by the source: its z-data, sample axes and
the styling keywords used there. -/
structure Contour where
  z : List (List ℚ)
  x : List ℚ
  y : List ℚ
  coloring : String
  showscale : Bool
  lineWidth : ℚ
  lineColor : String
deriving DecidableEq, Repr, Inhabited

/-- A text label added by `fig.add_annotation` in the source. -/
structure Annot where
  x : ℚ
  y : ℚ
  text : String
  showarrow : Bool
  fontColor : String
deriving DecidableEq, Repr, Inhabited

/-- The fields set by `fig.update_layout` in the source. -/
structure Layout where
  title : String
  xaxisTitle : String
  yaxisTitle : String
  xaxisRange : ℚ × ℚ
  yaxisRange : ℚ × ℚ
  height : ℕ
  width : ℕ
deriving DecidableEq, Repr, Inhabited

/-- A plotly figure as assembled by the callback: shapes, traces, text
labels, and layout. -/
structure Figure where
  shapes : List Shape
  traces : List Contour
  annots : List Annot
  layout : Layout
deriving DecidableEq, Repr, Inhabited

/-- `np.linspace(start, stop, num)` with the default `endpoint=True`:
`num` evenly spaced samples, sample `j` being
`start + (stop - start) * j / (num - 1)`. -/
def linspace (start stop : ℚ) (num : ℕ) : List ℚ :=
  (List.range num).map (fun j : ℕ => start + (stop - start) * (j : ℚ) / ((num : ℚ) - 1))

/-- `hydraulic_head(X, Y, W, head_left, head_right)` from `src/App.py`
line 48: the linear gradient of head.  `Y` is accepted and ignored, as in
the source. -/
def hydraulic_head (X Y W head_left head_right : ℚ) : ℚ :=
  head_left - (head_left - head_right) * X / W

/-- `update_figure(H, W, K, head_left, head_right, excavation_depth_right,
excavation_depth_left)` from `src/App.py` lines 63-125, translated shape
by shape.  `np.meshgrid(x, y)` gives `X[i][j] = x[j]`, `Y[i][j] = y[i]`,
so the elementwise `hydraulic_head(X, Y, ...)` is the nested map below.
`K` is accepted and never used, as in the source. -/
def update_figure (H W K head_left head_right
    excavation_depth_right excavation_depth_left : ℚ) : Figure :=
  let x := linspace 0 W 100
  let y := linspace 0 H 100
  let head := y.map (fun yi => x.map (fun xj => hydraulic_head xj yi W head_left head_right))
  -- excavation box on the right (lower)
  let rectRight : Shape :=
    { type := .rect, x0 := W / 2, x1 := W, y0 := H, y1 := H - excavation_depth_right,
      lineColor := "Black", lineWidth := 2, fillcolor := some "white", layer := some "below" }
  -- excavation box on the left (shallower or non-excavated)
  let rectLeft : Shape :=
    { type := .rect, x0 := 0, x1 := W / 2, y0 := H, y1 := H - excavation_depth_left,
      lineColor := "Black", lineWidth := 2, fillcolor := some "white", layer := some "below" }
  -- sheetpile (vertical line separating the two sides)
  let sheetpile : Shape :=
    { type := .rect, x0 := W / 2 - 0.5, x1 := W / 2, y0 := H,
      y1 := H - (excavation_depth_right + 0.1 * (H - excavation_depth_right)),
      lineColor := "gray", lineWidth := 1, fillcolor := some "gray", layer := none }
  -- equipotential lines (contours)
  let contour : Contour :=
    { z := head, x := x, y := y, coloring := "lines", showscale := false,
      lineWidth := 1, lineColor := "blue" }
  -- flow lines (manually specified for illustration): 5 vertical flow lines
  let flowLinesX := linspace 0 W 5
  let flowLines := flowLinesX.map (fun xc =>
    ({ type := .line, x0 := xc, x1 := xc, y0 := 0, y1 := H,
       lineColor := "orange", lineWidth := 1.5, fillcolor := none, layer := none } : Shape))
  -- water level on the left (head_left) as a horizontal line, with label
  let waterLeft : Shape :=
    { type := .line, x0 := 0, x1 := W / 2, y0 := head_left, y1 := head_left,
      lineColor := "blue", lineWidth := 2, fillcolor := none, layer := some "above" }
  let annLeft : Annot :=
    { x := W / 4, y := head_left,
      text := "Water Level (Left): " ++ toString head_left ++ " m",
      showarrow := false, fontColor := "blue" }
  -- water level on the right (head_right) as a horizontal line, with label
  let waterRight : Shape :=
    { type := .line, x0 := W / 2, x1 := W, y0 := head_right, y1 := head_right,
      lineColor := "blue", lineWidth := 2, fillcolor := none, layer := some "above" }
  let annRight : Annot :=
    { x := 3 * W / 4, y := head_right,
      text := "Water Level (Right): " ++ toString head_right ++ " m",
      showarrow := false, fontColor := "blue" }
  { shapes := [rectRight, rectLeft, sheetpile] ++ flowLines ++ [waterLeft, waterRight],
    traces := [contour],
    annots := [annLeft, annRight],
    layout :=
      { title := "Seepage Flow Around a Deep Excavation with Flow Net",
        xaxisTitle := "Width (m)", yaxisTitle := "Depth (m)",
        xaxisRange := (0, W), yaxisRange := (0, H),
        height := 600, width := 900 } }

/-- The z-data of the (unique) contour trace of a figure. -/
def contourZ (f : Figure) : List (List ℚ) :=
  (f.traces.getD 0 default).z

/-! Section: Helper lemmas -/

theorem linspace_length (a b : ℚ) (n : ℕ) : (linspace a b n).length = n := by
  simp only [linspace, List.length_map, List.length_range]

theorem linspace_getD (a b : ℚ) (n j : ℕ) (hj : j < n) (d : ℚ) :
    (linspace a b n).getD j d = a + (b - a) * (j : ℚ) / ((n : ℚ) - 1) := by
  rw [List.getD_eq_getElem _ _ (by simpa [linspace_length] using hj)]
  simp only [linspace, List.getElem_map, List.getElem_range]

theorem getD_map {α β : Type} (l : List α) (f : α → β) (i : ℕ) (hi : i < l.length)
    (d : α) (d' : β) : (l.map f).getD i d' = f (l.getD i d) := by
  rw [List.getD_eq_getElem _ _ (by simpa using hi), List.getD_eq_getElem _ _ hi,
    List.getElem_map]

theorem contourZ_update (H W K head_left head_right edr edl : ℚ) :
    contourZ (update_figure H W K head_left head_right edr edl)
      = (linspace 0 H 100).map (fun yi =>
          (linspace 0 W 100).map (fun xj => hydraulic_head xj yi W head_left head_right)) :=
  rfl

theorem contourZ_entry (H W K head_left head_right edr edl : ℚ) (i j : ℕ)
    (hi : i < 100) (hj : j < 100) :
    ((contourZ (update_figure H W K head_left head_right edr edl)).getD i []).getD j 0
      = hydraulic_head ((linspace 0 W 100).getD j 0) ((linspace 0 H 100).getD i 0)
          W head_left head_right := by
  rw [contourZ_update]
  rw [getD_map _ _ i (by simpa [linspace_length] using hi) (0 : ℚ) []]
  rw [getD_map _ _ j (by simpa [linspace_length] using hj) (0 : ℚ) (0 : ℚ)]

/-! Section: Claim C2 -/

/-- Claim C2: for every W > 0 and all head values, the head function at x = 0
equals head_left exactly and at x = W equals head_right exactly. -/
theorem hydraulic_head_boundary (W Y head_left head_right : ℚ) (hW : 0 < W) :
    hydraulic_head 0 Y W head_left head_right = head_left ∧
    hydraulic_head W Y W head_left head_right = head_right := by
  constructor
  · simp [hydraulic_head]
  · unfold hydraulic_head
    rw [mul_div_assoc, div_self (ne_of_gt hW), mul_one]
    ring

/-- Witness for C2 at W = 20, Y = 0, head_left = 8, head_right = 5. -/
theorem hydraulic_head_boundary_w :
    hydraulic_head 0 0 20 8 5 = 8 ∧ hydraulic_head 20 0 20 8 5 = 5 :=
  hydraulic_head_boundary 20 0 8 5 (by norm_num)

/-! Section: Claim C7 -/

/-- Claim C7: the layout of every returned figure carries the fixed title and
axis titles, x-range [0, W], y-range [0, H], and a 900 by 600 canvas. -/
theorem figure_layout (H W K head_left head_right edr edl : ℚ) :
    (update_figure H W K head_left head_right edr edl).layout.title
      = "Seepage Flow Around a Deep Excavation with Flow Net" ∧
    (update_figure H W K head_left head_right edr edl).layout.xaxisTitle = "Width (m)" ∧
    (update_figure H W K head_left head_right edr edl).layout.yaxisTitle = "Depth (m)" ∧
    (update_figure H W K head_left head_right edr edl).layout.xaxisRange = (0, W) ∧
    (update_figure H W K head_left head_right edr edl).layout.yaxisRange = (0, H) ∧
    (update_figure H W K head_left head_right edr edl).layout.width = 900 ∧
    (update_figure H W K head_left head_right edr edl).layout.height = 600 :=
  ⟨rfl, rfl, rfl, rfl, rfl, rfl, rfl⟩

/-! Section: Claim C9 -/

/-- Claim C9: the callback is deterministic in its seven parameters: two calls
whose parameters agree pairwise return identical figures. -/
theorem update_figure_deterministic
    (H W K head_left head_right edr edl Hb Wb Kb hlb hrb edrb edlb : ℚ)
    (h1 : H = Hb) (h2 : W = Wb) (h3 : K = Kb) (h4 : head_left = hlb)
    (h5 : head_right = hrb) (h6 : edr = edrb) (h7 : edl = edlb) :
    update_figure H W K head_left head_right edr edl
      = update_figure Hb Wb Kb hlb hrb edrb edlb := by
  subst h1 h2 h3 h4 h5 h6 h7
  rfl

/-- Witness for C9 at the default slider values. -/
theorem update_figure_deterministic_w :
    update_figure 10 20 (1/100000) 8 5 5 0 = update_figure 10 20 (1/100000) 8 5 5 0 :=
  update_figure_deterministic 10 20 (1/100000) 8 5 5 0 10 20 (1/100000) 8 5 5 0
    rfl rfl rfl rfl rfl rfl rfl

/-! Section: Claim C6 -/

/-- Claim C6: every returned figure has exactly 10 shapes, the first three
being rectangles (two excavation boxes and the sheet-pile), then five vertical
lines spanning y from 0 to H, then two horizontal water-level lines; it has
exactly 2 text labels and exactly 1 contour trace. -/
theorem figure_shape_counts (H W K head_left head_right edr edl : ℚ) :
    (update_figure H W K head_left head_right edr edl).shapes.length = 10 ∧
    (update_figure H W K head_left head_right edr edl).shapes.map Shape.type
      = [.rect, .rect, .rect, .line, .line, .line, .line, .line, .line, .line] ∧
    ((update_figure H W K head_left head_right edr edl).shapes.getD 3 default).x1 = ((update_figure H W K head_left head_right edr edl).shapes.getD 3 default).x0 ∧
    ((update_figure H W K head_left head_right edr edl).shapes.getD 3 default).y0 = 0 ∧
    ((update_figure H W K head_left head_right edr edl).shapes.getD 3 default).y1 = H ∧
    ((update_figure H W K head_left head_right edr edl).shapes.getD 4 default).x1 = ((update_figure H W K head_left head_right edr edl).shapes.getD 4 default).x0 ∧
    ((update_figure H W K head_left head_right edr edl).shapes.getD 4 default).y0 = 0 ∧
    ((update_figure H W K head_left head_right edr edl).shapes.getD 4 default).y1 = H ∧
    ((update_figure H W K head_left head_right edr edl).shapes.getD 5 default).x1 = ((update_figure H W K head_left head_right edr edl).shapes.getD 5 default).x0 ∧
    ((update_figure H W K head_left head_right edr edl).shapes.getD 5 default).y0 = 0 ∧
    ((update_figure H W K head_left head_right edr edl).shapes.getD 5 default).y1 = H ∧
    ((update_figure H W K head_left head_right edr edl).shapes.getD 6 default).x1 = ((update_figure H W K head_left head_right edr edl).shapes.getD 6 default).x0 ∧
    ((update_figure H W K head_left head_right edr edl).shapes.getD 6 default).y0 = 0 ∧
    ((update_figure H W K head_left head_right edr edl).shapes.getD 6 default).y1 = H ∧
    ((update_figure H W K head_left head_right edr edl).shapes.getD 7 default).x1 = ((update_figure H W K head_left head_right edr edl).shapes.getD 7 default).x0 ∧
    ((update_figure H W K head_left head_right edr edl).shapes.getD 7 default).y0 = 0 ∧
    ((update_figure H W K head_left head_right edr edl).shapes.getD 7 default).y1 = H ∧
    ((update_figure H W K head_left head_right edr edl).shapes.getD 8 default).y1 = ((update_figure H W K head_left head_right edr edl).shapes.getD 8 default).y0 ∧
    ((update_figure H W K head_left head_right edr edl).shapes.getD 9 default).y1 = ((update_figure H W K head_left head_right edr edl).shapes.getD 9 default).y0 ∧
    (update_figure H W K head_left head_right edr edl).annots.length = 2 ∧
    ((update_figure H W K head_left head_right edr edl).annots.getD 0 default).y = ((update_figure H W K head_left head_right edr edl).shapes.getD 8 default).y0 ∧
    ((update_figure H W K head_left head_right edr edl).annots.getD 1 default).y = ((update_figure H W K head_left head_right edr edl).shapes.getD 9 default).y0 ∧
    (update_figure H W K head_left head_right edr edl).traces.length = 1 :=
  ⟨rfl, rfl, rfl, rfl, rfl, rfl, rfl, rfl, rfl, rfl, rfl, rfl, rfl, rfl, rfl, rfl, rfl, rfl, rfl, rfl, rfl, rfl, rfl⟩

/-! Section: Claim C8 -/

/-- Claim C8: the five flow lines are vertical segments at x = 0, W/4, W/2,
3W/4 and W, each spanning y from 0 to H, and this block of five shapes is
unchanged by any variation of K, head_left or head_right. -/
theorem flow_lines_fixed (H W K head_left head_right edr edl Kb hlb hrb : ℚ) :
    ((update_figure H W K head_left head_right edr edl).shapes.getD 3 default).x0 = 0 ∧
    ((update_figure H W K head_left head_right edr edl).shapes.getD 4 default).x0 = W / 4 ∧
    ((update_figure H W K head_left head_right edr edl).shapes.getD 5 default).x0 = W / 2 ∧
    ((update_figure H W K head_left head_right edr edl).shapes.getD 6 default).x0 = 3 * W / 4 ∧
    ((update_figure H W K head_left head_right edr edl).shapes.getD 7 default).x0 = W ∧
    ((update_figure H W K head_left head_right edr edl).shapes.getD 3 default).x1 = ((update_figure H W K head_left head_right edr edl).shapes.getD 3 default).x0 ∧
    ((update_figure H W K head_left head_right edr edl).shapes.getD 4 default).x1 = ((update_figure H W K head_left head_right edr edl).shapes.getD 4 default).x0 ∧
    ((update_figure H W K head_left head_right edr edl).shapes.getD 5 default).x1 = ((update_figure H W K head_left head_right edr edl).shapes.getD 5 default).x0 ∧
    ((update_figure H W K head_left head_right edr edl).shapes.getD 6 default).x1 = ((update_figure H W K head_left head_right edr edl).shapes.getD 6 default).x0 ∧
    ((update_figure H W K head_left head_right edr edl).shapes.getD 7 default).x1 = ((update_figure H W K head_left head_right edr edl).shapes.getD 7 default).x0 ∧
    ((update_figure H W K head_left head_right edr edl).shapes.getD 3 default).y0 = 0 ∧
    ((update_figure H W K head_left head_right edr edl).shapes.getD 3 default).y1 = H ∧
    ((update_figure H W K head_left head_right edr edl).shapes.getD 4 default).y0 = 0 ∧
    ((update_figure H W K head_left head_right edr edl).shapes.getD 4 default).y1 = H ∧
    ((update_figure H W K head_left head_right edr edl).shapes.getD 5 default).y0 = 0 ∧
    ((update_figure H W K head_left head_right edr edl).shapes.getD 5 default).y1 = H ∧
    ((update_figure H W K head_left head_right edr edl).shapes.getD 6 default).y0 = 0 ∧
    ((update_figure H W K head_left head_right edr edl).shapes.getD 6 default).y1 = H ∧
    ((update_figure H W K head_left head_right edr edl).shapes.getD 7 default).y0 = 0 ∧
    ((update_figure H W K head_left head_right edr edl).shapes.getD 7 default).y1 = H ∧
    ((update_figure H W K head_left head_right edr edl).shapes.drop 3).take 5
      = ((update_figure H W Kb hlb hrb edr edl).shapes.drop 3).take 5 := by
  refine ⟨?_, ?_, ?_, ?_, ?_, rfl, rfl, rfl, rfl, rfl, rfl, rfl, rfl, rfl, rfl, rfl, rfl, rfl, rfl, rfl, rfl⟩
  · show (0 : ℚ) + (W - 0) * ((0 : ℕ) : ℚ) / (((5 : ℕ) : ℚ) - 1) = 0
    push_cast
    ring
  · show (0 : ℚ) + (W - 0) * ((1 : ℕ) : ℚ) / (((5 : ℕ) : ℚ) - 1) = W / 4
    push_cast
    ring
  · show (0 : ℚ) + (W - 0) * ((2 : ℕ) : ℚ) / (((5 : ℕ) : ℚ) - 1) = W / 2
    push_cast
    ring
  · show (0 : ℚ) + (W - 0) * ((3 : ℕ) : ℚ) / (((5 : ℕ) : ℚ) - 1) = 3 * W / 4
    push_cast
    ring
  · show (0 : ℚ) + (W - 0) * ((4 : ℕ) : ℚ) / (((5 : ℕ) : ℚ) - 1) = W
    push_cast
    ring

/-! Section: Claim C10 -/

/-- Claim C10: for every input the sheet-pile rectangle spans x from
W/2 - 0.5 to W/2 and y from H down to H - (edr + 0.1 (H - edr)), and the
shape depends only on H, W and edr, never on K, the heads or edl; whenever
edr < H its bottom lies strictly below the right excavation floor. -/
theorem sheetpile_geometry (H W K head_left head_right edr edl Kb hlb hrb edlb : ℚ) :
    ((update_figure H W K head_left head_right edr edl).shapes.getD 2 default).x0 = W / 2 - 0.5 ∧
    ((update_figure H W K head_left head_right edr edl).shapes.getD 2 default).x1 = W / 2 ∧
    ((update_figure H W K head_left head_right edr edl).shapes.getD 2 default).y0 = H ∧
    ((update_figure H W K head_left head_right edr edl).shapes.getD 2 default).y1 = H - (edr + 0.1 * (H - edr)) ∧
    ((update_figure H W K head_left head_right edr edl).shapes.getD 2 default) = ((update_figure H W Kb hlb hrb edr edlb).shapes.getD 2 default) ∧
    (edr < H → ((update_figure H W K head_left head_right edr edl).shapes.getD 2 default).y1 < ((update_figure H W K head_left head_right edr edl).shapes.getD 0 default).y1) := by
  refine ⟨rfl, rfl, rfl, rfl, rfl, ?_⟩
  intro h
  show H - (edr + 0.1 * (H - edr)) < H - edr
  norm_num
  linarith

/-- Witness for C10 at H = 10, edr = 5, discharging the edr < H antecedent. -/
theorem sheetpile_geometry_w :
    (5 : ℚ) < 10 ∧
    (((update_figure 10 20 (1/100000) 8 5 5 0).shapes.getD 2 default).x0 = 20 / 2 - 0.5 ∧
     ((update_figure 10 20 (1/100000) 8 5 5 0).shapes.getD 2 default).x1 = 20 / 2 ∧
     ((update_figure 10 20 (1/100000) 8 5 5 0).shapes.getD 2 default).y0 = 10 ∧
     ((update_figure 10 20 (1/100000) 8 5 5 0).shapes.getD 2 default).y1
       = 10 - (5 + 0.1 * (10 - 5)) ∧
     ((update_figure 10 20 (1/100000) 8 5 5 0).shapes.getD 2 default)
       = ((update_figure 10 20 (2/100000) 9 4 5 3).shapes.getD 2 default) ∧
     ((update_figure 10 20 (1/100000) 8 5 5 0).shapes.getD 2 default).y1
       < ((update_figure 10 20 (1/100000) 8 5 5 0).shapes.getD 0 default).y1) := by
  have h := sheetpile_geometry 10 20 (1/100000) 8 5 5 0 (2/100000) 9 4 3
  exact ⟨by norm_num, h.1, h.2.1, h.2.2.1, h.2.2.2.1, h.2.2.2.2.1,
    h.2.2.2.2.2 (by norm_num)⟩

/-! Section: Claim C5 (corrected) -/

/-- Counterexample to C5 as stated: at H = 10 with both excavation depths 11
(exceeding H), neither excavation rectangle satisfies y1 > y0; in fact
y1 < y0 (each rectangle hangs below the soil layer, its bottom at -1). -/
theorem excavation_invert_cex :
    ¬ (((update_figure 10 20 (1/100000) 8 5 11 11).shapes.getD 0 default).y0
        < ((update_figure 10 20 (1/100000) 8 5 11 11).shapes.getD 0 default).y1) ∧
    ¬ (((update_figure 10 20 (1/100000) 8 5 11 11).shapes.getD 1 default).y0
        < ((update_figure 10 20 (1/100000) 8 5 11 11).shapes.getD 1 default).y1) ∧
    ((update_figure 10 20 (1/100000) 8 5 11 11).shapes.getD 0 default).y1
      < ((update_figure 10 20 (1/100000) 8 5 11 11).shapes.getD 0 default).y0 ∧
    ((update_figure 10 20 (1/100000) 8 5 11 11).shapes.getD 1 default).y1
      < ((update_figure 10 20 (1/100000) 8 5 11 11).shapes.getD 1 default).y0 := by
  refine ⟨?_, ?_, ?_, ?_⟩
  · show ¬ ((10 : ℚ) < 10 - 11)
    norm_num
  · show ¬ ((10 : ℚ) < 10 - 11)
    norm_num
  · show (10 : ℚ) - 11 < 10
    norm_num
  · show (10 : ℚ) - 11 < 10
    norm_num

/-- Claim C5 (amended): every input emits the excavation rectangles with
coordinates exactly y0 = H and y1 = H - depth, no validation rejecting or
clamping the parameters; when a depth exceeds H (either side independently)
the corresponding rectangle has its bottom y1 below zero, hence y1 < y0
(not y1 > y0). -/
theorem excavation_rects_unvalidated (H W K head_left head_right edr edl : ℚ)
    (hH : 0 < H) :
    ((update_figure H W K head_left head_right edr edl).shapes.getD 0 default).y0 = H ∧
    ((update_figure H W K head_left head_right edr edl).shapes.getD 0 default).y1 = H - edr ∧
    ((update_figure H W K head_left head_right edr edl).shapes.getD 1 default).y0 = H ∧
    ((update_figure H W K head_left head_right edr edl).shapes.getD 1 default).y1 = H - edl ∧
    (H < edr → ((update_figure H W K head_left head_right edr edl).shapes.getD 0 default).y1 < 0 ∧ ((update_figure H W K head_left head_right edr edl).shapes.getD 0 default).y1 < ((update_figure H W K head_left head_right edr edl).shapes.getD 0 default).y0) ∧
    (H < edl → ((update_figure H W K head_left head_right edr edl).shapes.getD 1 default).y1 < 0 ∧ ((update_figure H W K head_left head_right edr edl).shapes.getD 1 default).y1 < ((update_figure H W K head_left head_right edr edl).shapes.getD 1 default).y0) := by
  refine ⟨rfl, rfl, rfl, rfl, ?_, ?_⟩
  · intro hdr
    refine ⟨?_, ?_⟩
    · show H - edr < 0
      linarith
    · show H - edr < H
      linarith
  · intro hdl
    refine ⟨?_, ?_⟩
    · show H - edl < 0
      linarith
    · show H - edl < H
      linarith

/-- Witness for the amended C5 at H = 10, edr = 11, edl = 0: the right depth
exceeds H while the left one does not, and the right rectangle still hangs
below zero with y1 < y0. -/
theorem excavation_rects_unvalidated_w :
    ((0 : ℚ) < 10 ∧ (10 : ℚ) < 11) ∧
    (((update_figure 10 20 (1/100000) 8 5 11 0).shapes.getD 0 default).y0 = 10 ∧
     ((update_figure 10 20 (1/100000) 8 5 11 0).shapes.getD 0 default).y1 = 10 - 11 ∧
     ((update_figure 10 20 (1/100000) 8 5 11 0).shapes.getD 1 default).y0 = 10 ∧
     ((update_figure 10 20 (1/100000) 8 5 11 0).shapes.getD 1 default).y1 = 10 - 0 ∧
     ((update_figure 10 20 (1/100000) 8 5 11 0).shapes.getD 0 default).y1 < 0 ∧
     ((update_figure 10 20 (1/100000) 8 5 11 0).shapes.getD 0 default).y1
       < ((update_figure 10 20 (1/100000) 8 5 11 0).shapes.getD 0 default).y0) := by
  have h := excavation_rects_unvalidated 10 20 (1/100000) 8 5 11 0 (by norm_num)
  exact ⟨⟨by norm_num, by norm_num⟩, h.1, h.2.1, h.2.2.1, h.2.2.2.1,
    (h.2.2.2.2.1 (by norm_num)).1, (h.2.2.2.2.1 (by norm_num)).2⟩

/-! Section: Claim C1 -/

/-- Claim C1: for W > 0 the contour z-data is a 100 by 100 array whose entry
at row i, column j is head_left - (head_left - head_right) * x_j / W, where
x_j = W * j / 99 is the j-th of the 100 evenly spaced samples of [0, W]; the
entry does not depend on the row index i. -/
theorem contour_z_linear (H W K head_left head_right edr edl : ℚ) (hW : 0 < W)
    (i j : ℕ) (hi : i < 100) (hj : j < 100) :
    (contourZ (update_figure H W K head_left head_right edr edl)).length = 100 ∧
    (∀ row ∈ contourZ (update_figure H W K head_left head_right edr edl),
      row.length = 100) ∧
    ((contourZ (update_figure H W K head_left head_right edr edl)).getD i []).getD j 0
      = head_left - (head_left - head_right) * (W * (j : ℚ) / 99) / W ∧
    (∀ ib : ℕ, ib < 100 →
      ((contourZ (update_figure H W K head_left head_right edr edl)).getD ib []).getD j 0
        = ((contourZ (update_figure H W K head_left head_right edr edl)).getD i []).getD
            j 0) := by
  have hx : (linspace 0 W 100).getD j 0 = W * (j : ℚ) / 99 := by
    rw [linspace_getD 0 W 100 j hj 0]
    norm_num
  refine ⟨?_, ?_, ?_, ?_⟩
  · rw [contourZ_update]
    simp [linspace_length]
  · intro row hrow
    rw [contourZ_update] at hrow
    obtain ⟨yi, -, rfl⟩ := List.mem_map.mp hrow
    simp [linspace_length]
  · rw [contourZ_entry H W K head_left head_right edr edl i j hi hj, hx]
    rfl
  · intro ib hib
    rw [contourZ_entry H W K head_left head_right edr edl ib j hib hj,
      contourZ_entry H W K head_left head_right edr edl i j hi hj]
    rfl

/-- Witness for C1 at the default slider values, entry (2, 3). -/
theorem contour_z_linear_w :
    ((0 : ℚ) < 20 ∧ (2 : ℕ) < 100 ∧ (3 : ℕ) < 100) ∧
    ((contourZ (update_figure 10 20 (1/100000) 8 5 5 0)).length = 100 ∧
     (∀ row ∈ contourZ (update_figure 10 20 (1/100000) 8 5 5 0), row.length = 100) ∧
     ((contourZ (update_figure 10 20 (1/100000) 8 5 5 0)).getD 2 []).getD 3 0
       = 8 - (8 - 5) * (20 * ((3 : ℕ) : ℚ) / 99) / 20 ∧
     (∀ ib : ℕ, ib < 100 →
       ((contourZ (update_figure 10 20 (1/100000) 8 5 5 0)).getD ib []).getD 3 0
         = ((contourZ (update_figure 10 20 (1/100000) 8 5 5 0)).getD 2 []).getD 3 0)) :=
  ⟨⟨by norm_num, by norm_num, by norm_num⟩,
   contour_z_linear 10 20 (1/100000) 8 5 5 0 (by norm_num) 2 3 (by norm_num) (by norm_num)⟩

/-! Section: Claim C3 -/

/-- Claim C3: two-run noninterference: two renders agreeing on H, W, head_left
and head_right but differing arbitrarily in K and the excavation depths
produce identical head fields; and within one call the entry at a grid point
does not depend on its row (y) index. -/
theorem head_field_noninterference (H W K head_left head_right edr edl Kb edrb edlb : ℚ)
    (i ib j : ℕ) (hi : i < 100) (hib : ib < 100) (hj : j < 100) :
    contourZ (update_figure H W K head_left head_right edr edl)
      = contourZ (update_figure H W Kb head_left head_right edrb edlb) ∧
    ((contourZ (update_figure H W K head_left head_right edr edl)).getD i []).getD j 0
      = ((contourZ (update_figure H W K head_left head_right edr edl)).getD ib []).getD
          j 0 := by
  constructor
  · rfl
  · rw [contourZ_entry H W K head_left head_right edr edl i j hi hj,
      contourZ_entry H W K head_left head_right edr edl ib j hib hj]
    rfl

/-- Witness for C3 at the default slider values against a run with different
K and excavation depths, rows 0 and 99, column 7. -/
theorem head_field_noninterference_w :
    ((0 : ℕ) < 100 ∧ (99 : ℕ) < 100 ∧ (7 : ℕ) < 100) ∧
    (contourZ (update_figure 10 20 (1/100000) 8 5 5 0)
       = contourZ (update_figure 10 20 (1/10000) 8 5 9 4) ∧
     ((contourZ (update_figure 10 20 (1/100000) 8 5 5 0)).getD 0 []).getD 7 0
       = ((contourZ (update_figure 10 20 (1/100000) 8 5 5 0)).getD 99 []).getD 7 0) :=
  ⟨⟨by norm_num, by norm_num, by norm_num⟩,
   head_field_noninterference 10 20 (1/100000) 8 5 5 0 (1/10000) 9 4 0 99 7
     (by norm_num) (by norm_num) (by norm_num)⟩

/-! Section: Claim C4 -/

/-- Claim C4: for W > 0 the head function is non-increasing in x when
head_left ≥ head_right and non-decreasing when head_left ≤ head_right, and at
every x in [0, W] its value lies between head_left and head_right. -/
theorem hydraulic_head_monotone (W Y head_left head_right xa xb x : ℚ) (hW : 0 < W)
    (hab : xa ≤ xb) (hx0 : 0 ≤ x) (hxW : x ≤ W) :
    (head_right ≤ head_left →
      hydraulic_head xb Y W head_left head_right
        ≤ hydraulic_head xa Y W head_left head_right) ∧
    (head_left ≤ head_right →
      hydraulic_head xa Y W head_left head_right
        ≤ hydraulic_head xb Y W head_left head_right) ∧
    min head_left head_right ≤ hydraulic_head x Y W head_left head_right ∧
    hydraulic_head x Y W head_left head_right ≤ max head_left head_right := by
  have hWne : W ≠ 0 := ne_of_gt hW
  have hinv : (0 : ℚ) < W⁻¹ := inv_pos.mpr hW
  unfold hydraulic_head
  have hu : W * ((head_left - head_right) * x / W) = (head_left - head_right) * x := by
    field_simp
  refine ⟨?_, ?_, ?_, ?_⟩
  · intro h
    have h1 : (head_left - head_right) * xa ≤ (head_left - head_right) * xb :=
      mul_le_mul_of_nonneg_left hab (by linarith)
    have h2 : (head_left - head_right) * xa * W⁻¹ ≤ (head_left - head_right) * xb * W⁻¹ :=
      mul_le_mul_of_nonneg_right h1 (le_of_lt hinv)
    rw [div_eq_mul_inv, div_eq_mul_inv]
    linarith
  · intro h
    have h1 : (head_left - head_right) * xb ≤ (head_left - head_right) * xa :=
      mul_le_mul_of_nonpos_left hab (by linarith)
    have h2 : (head_left - head_right) * xb * W⁻¹ ≤ (head_left - head_right) * xa * W⁻¹ :=
      mul_le_mul_of_nonneg_right h1 (le_of_lt hinv)
    rw [div_eq_mul_inv, div_eq_mul_inv]
    linarith
  · rcases le_total head_left head_right with hc | hc
    · rw [min_eq_left hc]
      nlinarith [hu, mul_nonneg (mul_nonneg (by linarith : (0:ℚ) ≤ head_right - head_left) hx0) (le_of_lt hinv)]
    · rw [min_eq_right hc]
      nlinarith [hu, mul_le_mul_of_nonneg_left hxW (by linarith : (0:ℚ) ≤ head_left - head_right)]
  · rcases le_total head_left head_right with hc | hc
    · rw [max_eq_right hc]
      nlinarith [hu, mul_le_mul_of_nonpos_left hxW (by linarith : head_left - head_right ≤ 0)]
    · rw [max_eq_left hc]
      nlinarith [hu, mul_nonneg (mul_nonneg (by linarith : (0:ℚ) ≤ head_left - head_right) hx0) (le_of_lt hinv)]

/-- Witness for C4 at W = 20, heads 8 and 5, xa = 3 ≤ xb = 14, x = 10. -/
theorem hydraulic_head_monotone_w :
    ((0 : ℚ) < 20 ∧ (3 : ℚ) ≤ 14 ∧ (0 : ℚ) ≤ 10 ∧ (10 : ℚ) ≤ 20) ∧
    (((5 : ℚ) ≤ 8 → hydraulic_head 14 0 20 8 5 ≤ hydraulic_head 3 0 20 8 5) ∧
     ((8 : ℚ) ≤ 5 → hydraulic_head 3 0 20 8 5 ≤ hydraulic_head 14 0 20 8 5) ∧
     min (8 : ℚ) 5 ≤ hydraulic_head 10 0 20 8 5 ∧
     hydraulic_head 10 0 20 8 5 ≤ max (8 : ℚ) 5) :=
  ⟨⟨by norm_num, by norm_num, by norm_num, by norm_num⟩,
   hydraulic_head_monotone 20 0 8 5 3 14 10 (by norm_num) (by norm_num)
     (by norm_num) (by norm_num)⟩

end Seepage
